import Mathlib

/-!
Shallow embedding of the ride-sharing record keeper (svennm/1040_Project1).

Conventions of the embedding:
* C++ `float` members are modelled as `ℚ`: the program only stores ratings and
  compares them with `<` / `>` against small integer bounds, it never performs
  floating-point arithmetic, so the exact-ratio model is faithful on every
  value the program handles.
* C++ `int` is modelled as `Int` (no arithmetic is ever performed on ids or
  capacities, so overflow cannot arise).
* `std::vector<T>` is modelled as `List T`; `push_back` is append at the end.
* Console output is modelled as the list of strings a member function prints;
  console input to a prompt loop is modelled as a stream `Nat → String` of the
  successive tokens `cin >> s` would read.
-/

/-- The passenger record, from src/passenger.h: private members
`name`, `id`, `p_method`, `handicap`, `rating`, `pets`. -/
structure passenger where
  name : String
  id : Int
  p_method : String
  handicap : Bool
  rating : ℚ
  pets : Bool
deriving Repr, DecidableEq

/-- src/passenger.cpp `passenger::passenger()`: the body is empty, so the
scalar members (`id`, `handicap`, `rating`, `pets`) are left with
indeterminate values — modelled by taking them as parameters — while the
two `std::string` members are default-constructed to the empty string. -/
def passenger.defaultCtor (i0 : Int) (h0 : Bool) (r0 : ℚ) (pt0 : Bool) : passenger :=
  ⟨"", i0, "", h0, r0, pt0⟩

/-- src/passenger.cpp `passenger::setName`. -/
def passenger.setName (p : passenger) (n : String) : passenger := { p with name := n }

/-- src/passenger.cpp `passenger::setID`. -/
def passenger.setID (p : passenger) (i : Int) : passenger := { p with id := i }

/-- src/passenger.cpp `passenger::setPaymentMethod`. -/
def passenger.setPaymentMethod (p : passenger) (m : String) : passenger := { p with p_method := m }

/-- src/passenger.cpp `passenger::setHandicap`. -/
def passenger.setHandicap (p : passenger) (b : Bool) : passenger := { p with handicap := b }

/-- src/passenger.cpp `passenger::setRating`. -/
def passenger.setRating (p : passenger) (f : ℚ) : passenger := { p with rating := f }

/-- src/passenger.cpp `passenger::setPets`. -/
def passenger.setPets (p : passenger) (b : Bool) : passenger := { p with pets := b }

/-- src/passenger.cpp `passenger::getName`. -/
def passenger.getName (p : passenger) : String := p.name

/-- src/passenger.cpp `passenger::getID`. -/
def passenger.getID (p : passenger) : Int := p.id

/-- src/passenger.cpp `passenger::getPayment`. -/
def passenger.getPayment (p : passenger) : String := p.p_method

/-- src/passenger.cpp `passenger::getHandicap`. -/
def passenger.getHandicap (p : passenger) : Bool := p.handicap

/-- src/passenger.cpp `passenger::getRating`. -/
def passenger.getRating (p : passenger) : ℚ := p.rating

/-- src/passenger.cpp `passenger::getPets`. -/
def passenger.getPets (p : passenger) : Bool := p.pets

/-- The driver record, from src/driver.h: private members `d_id`, `d_name`,
`v_capacity`, `handicap`, `v_type`, `d_rating`, `v_available`, `pets`,
`notes`. -/
structure driver where
  d_id : Int
  d_name : String
  v_capacity : Int
  handicap : Bool
  v_type : String
  d_rating : ℚ
  v_available : Bool
  pets : Bool
  notes : String
deriving Repr, DecidableEq

/-- src/driver.cpp `driver::driver()`: assigns `d_id = 0`, `d_name = "None"`,
`v_capacity = 0`, `handicap = 0`, `v_type = "Blank"`, `d_rating = 0.0`,
`v_available = 0`, `pets = 0`, `notes = "Blank"`. -/
def driver.defaultCtor : driver :=
  ⟨0, "None", 0, false, "Blank", 0, false, false, "Blank"⟩

/-- src/driver.cpp `driver::setID`. -/
def driver.setID (d : driver) (i : Int) : driver := { d with d_id := i }

/-- src/driver.cpp `driver::setName`. -/
def driver.setName (d : driver) (n : String) : driver := { d with d_name := n }

/-- src/driver.cpp `driver::setCapacity`. -/
def driver.setCapacity (d : driver) (i : Int) : driver := { d with v_capacity := i }

/-- src/driver.cpp `driver::setHandicap`. -/
def driver.setHandicap (d : driver) (b : Bool) : driver := { d with handicap := b }

/-- src/driver.cpp `driver::setType`. -/
def driver.setType (d : driver) (t : String) : driver := { d with v_type := t }

/-- src/driver.cpp `driver::setRating`. -/
def driver.setRating (d : driver) (r : ℚ) : driver := { d with d_rating := r }

/-- src/driver.cpp `driver::setAvailable`. -/
def driver.setAvailable (d : driver) (b : Bool) : driver := { d with v_available := b }

/-- src/driver.cpp `driver::setPets`. -/
def driver.setPets (d : driver) (b : Bool) : driver := { d with pets := b }

/-- src/driver.cpp `driver::setNotes`. -/
def driver.setNotes (d : driver) (n : String) : driver := { d with notes := n }

/-- src/driver.cpp `driver::getID`. -/
def driver.getID (d : driver) : Int := d.d_id

/-- src/driver.cpp `driver::getName`. -/
def driver.getName (d : driver) : String := d.d_name

/-- src/driver.cpp `driver::getCapacity`. -/
def driver.getCapacity (d : driver) : Int := d.v_capacity

/-- src/driver.cpp `driver::getHandicap`. -/
def driver.getHandicap (d : driver) : Bool := d.handicap

/-- src/driver.cpp `driver::getType`. -/
def driver.getType (d : driver) : String := d.v_type

/-- src/driver.cpp `driver::getRating`. -/
def driver.getRating (d : driver) : ℚ := d.d_rating

/-- src/driver.cpp `driver::getAvailable`. -/
def driver.getAvailable (d : driver) : Bool := d.v_available

/-- src/driver.cpp `driver::getPets`. -/
def driver.getPets (d : driver) : Bool := d.pets

/-- src/driver.cpp `driver::getNotes`. -/
def driver.getNotes (d : driver) : String := d.notes

/-- The passenger collection, from src/passengers.h: a
`vector<passenger> TotalPassengers` plus a `string ListName`. -/
structure passengers where
  TotalPassengers : List passenger
  ListName : String
deriving Repr, DecidableEq

/-- src/passengers.cpp `passengers::passengers(string name)`: the vector is
default-constructed empty and `ListName` is assigned the argument. -/
def passengers.mkNamed (nm : String) : passengers := ⟨[], nm⟩

/-- src/passengers.cpp `passengers::Add`: `TotalPassengers.push_back(p)`. -/
def passengers.Add (c : passengers) (p : passenger) : passengers :=
  { c with TotalPassengers := c.TotalPassengers ++ [p] }

/-- A sequence of `Add` calls, one per element of the list, in order. -/
def passengers.AddAll : passengers → List passenger → passengers
  | c, [] => c
  | c, p :: ps => passengers.AddAll (c.Add p) ps

/-- src/passengers.cpp `passengers::PrintSize` output: when the vector size is
nonzero it prints "The size is: " followed by the size, otherwise it prints
"Vector is empty.". -/
def passengers.PrintSize (c : passengers) : List String :=
  if c.TotalPassengers.length ≠ 0 then
    ["The size is: " ++ toString c.TotalPassengers.length]
  else
    ["Vector is empty.\n"]

/-- The numeric count that src/passengers.cpp `passengers::PrintSize` reports:
the vector size when the vector is nonempty, and no number at all when it is
empty (the "Vector is empty." branch prints no size). -/
def passengers.PrintSizeNumber (c : passengers) : Option Nat :=
  if c.TotalPassengers.length ≠ 0 then some c.TotalPassengers.length else none

/-- The lines src/passengers.cpp `passengers::PrintAll` prints for one
passenger record in its loop body. -/
def renderPassenger (p : passenger) : List String :=
  ["Name: " ++ p.getName,
   "ID: " ++ toString p.getID,
   "Payment: " ++ p.getPayment,
   "Handicap: " ++ (if p.getHandicap = false then "Not Handicap Capable \n" else "Handicap Capable \n"),
   "Ratings: " ++ toString p.getRating,
   if p.getPets = false then "Not Pet Capable \n" else "Pet Capable \n\n"]

/-- src/passengers.cpp `passengers::PrintAll`: iterates the vector from
`begin()` to `end()` printing each record; the output is one rendered block
per record, in vector order. -/
def passengers.PrintAll (c : passengers) : List (List String) :=
  c.TotalPassengers.map renderPassenger

/-- The driver collection, from src/drivers.h: a `vector<driver> TotalDrivers`
plus a `string ListName`. -/
structure drivers where
  TotalDrivers : List driver
  ListName : String
deriving Repr, DecidableEq

/-- Modelled from the spec: the constructor `drivers(string)` is declared in
src/drivers.h but no definition exists under src/. Spec §3: the collection is
"created empty with a name at program start". -/
def drivers.mkNamed (nm : String) : drivers := ⟨[], nm⟩

/-- Modelled from the spec: `drivers::Add` is declared in src/drivers.h but no
definition exists under src/. Spec §4.1: "Add(record): appends to the end; no
validation, no duplicate-id check; always succeeds." -/
def drivers.Add (c : drivers) (d : driver) : drivers :=
  { c with TotalDrivers := c.TotalDrivers ++ [d] }

/-- A sequence of driver `Add` calls, one per element of the list, in order. -/
def drivers.AddAll : drivers → List driver → drivers
  | c, [] => c
  | c, d :: ds => drivers.AddAll (c.Add d) ds

/-- Modelled from the spec: `drivers::PrintSize` is declared in src/drivers.h
but no definition exists under src/. Spec §4.1: "Count(): returns current
number of records; side-effect-free." -/
def drivers.Count (c : drivers) : Nat := c.TotalDrivers.length

/-- src/passengers.cpp `passengers::FindEntry(int n)`:
`it = find(TotalPassengers.begin(), TotalPassengers.end(), n); cout << *it;`.
The source is ill-formed as written — `it` is never declared and no
`operator==` comparing a `passenger` with an `int` exists — so, reading the
evident id-comparison intent of `std::find` over the vector, the search is
modelled as the first record whose id equals `n`; `none` means the search
reached `end()`, where the source's unconditional dereference `*it` has no
defined value. -/
def passengers.FindEntrySearch (c : passengers) (n : Int) : Option passenger :=
  c.TotalPassengers.find? (fun p => p.id == n)

/-- The condition of the yes/no validation loops in src/main.cpp
(lines 75, 113, 132, 184, 212): `tempStr != "yes" || tempStr != "no"`. -/
def yesNoCond (s : String) : Bool := (s != "yes") || (s != "no")

/-- The condition of the vehicle-type validation loop in src/main.cpp
(line 85): disequalities against the seven type names joined by `||`. -/
def vehicleTypeCond (s : String) : Bool :=
  (s != "compact") || (s != "2dr") || (s != "sedan") || (s != "4dr") ||
  (s != "SUV") || (s != "van") || (s != "other")

/-- The condition of the payment-method validation loop in src/main.cpp
(line 165): `tempStr != "cash" || tempStr != "card" || tempStr != "debit"`. -/
def paymentCond (s : String) : Bool :=
  (s != "cash") || (s != "card") || (s != "debit")

/-- One `do { cin >> tempStr; ... } while(cond)` validation loop of
src/main.cpp, run against the token stream `inputs` starting at position `i`
with an iteration bound `fuel`: each iteration reads one token, and the loop
exits — returning the token read on the exiting iteration together with the
next stream position — exactly when the condition evaluates to false on that
token. `none` means the loop was still running after `fuel` iterations. -/
def runPromptLoop (cond : String → Bool) (inputs : Nat → String) : Nat → Nat → Option (String × Nat)
  | 0, _ => none
  | fuel + 1, i =>
    if cond (inputs i) then runPromptLoop cond inputs fuel (i + 1)
    else some (inputs i, i + 1)

/-- The public member functions of the `passengers` class
(src/passengers.h lines 18-21), as abstract operations. -/
inductive POp where
  | add (p : passenger)
  | printSize
  | printAll
  | findEntry (n : Int)
deriving Repr

/-- The effect of each public `passengers` member function on the object's
state: `Add` appends to `TotalPassengers` (src/passengers.cpp line 14);
`PrintSize`, `PrintAll` and `FindEntry` write to `cout` but assign to neither
`TotalPassengers` nor `ListName` (src/passengers.cpp lines 17-55). -/
def stepOp (c : passengers) : POp → passengers
  | .add p => c.Add p
  | .printSize => c
  | .printAll => c
  | .findEntry _ => c

/-- Run a sequence of `passengers` member-function calls, in order. -/
def runOps : passengers → List POp → passengers
  | c, [] => c
  | c, op :: ops => runOps (stepOp c op) ops

/-- The records passed to `Add`, in call order, within an operation
sequence. -/
def addsOf : List POp → List passenger
  | [] => []
  | .add p :: ops => p :: addsOf ops
  | .printSize :: ops => addsOf ops
  | .printAll :: ops => addsOf ops
  | .findEntry _ :: ops => addsOf ops

/-- The `case 'a'` add flow of src/passengersmain.cpp (lines 26-61): the
console values `nm`, `idv`, `pm`, `hc`, `rt`, `pt` are read with no
validation of any kind, set on a default-constructed `passenger` in the
source's order (`setID`, `setName`, `setPaymentMethod`, `setHandicap`,
`setRating`, `setPets`), and the record is appended with `Add`. The
parameters `i0 h0 r0 pt0` are the indeterminate scalar members of the
default-constructed record; every member is overwritten before the append. -/
def passengersmainAddFlow (c : passengers) (i0 : Int) (h0 : Bool) (r0 : ℚ) (pt0 : Bool)
    (nm : String) (idv : Int) (pm : String) (hc : Bool) (rt : ℚ) (pt : Bool) : passengers :=
  c.Add (((((((passenger.defaultCtor i0 h0 r0 pt0).setID idv).setName nm).setPaymentMethod pm).setHandicap hc).setRating rt).setPets pt)

/-- A concrete record used to instantiate universally quantified theorems. -/
def samplePassenger : passenger := ⟨"Bo", 7, "cash", false, 3, true⟩

theorem passengers_AddAll_spec : ∀ (l : List passenger) (c : passengers),
    (c.AddAll l).TotalPassengers = c.TotalPassengers ++ l ∧
    (c.AddAll l).ListName = c.ListName := by
  intro l
  induction l with
  | nil => intro c; exact ⟨(List.append_nil _).symm, rfl⟩
  | cons p ps ih =>
    intro c
    rcases ih (c.Add p) with ⟨h1, h2⟩
    constructor
    · show (passengers.AddAll (c.Add p) ps).TotalPassengers = _
      rw [h1]
      simp [passengers.Add]
    · show (passengers.AddAll (c.Add p) ps).ListName = _
      exact h2

theorem drivers_AddAll_spec : ∀ (l : List driver) (c : drivers),
    (c.AddAll l).TotalDrivers = c.TotalDrivers ++ l ∧
    (c.AddAll l).ListName = c.ListName := by
  intro l
  induction l with
  | nil => intro c; exact ⟨(List.append_nil _).symm, rfl⟩
  | cons d ds ih =>
    intro c
    rcases ih (c.Add d) with ⟨h1, h2⟩
    constructor
    · show (drivers.AddAll (c.Add d) ds).TotalDrivers = _
      rw [h1]
      simp [drivers.Add]
    · show (drivers.AddAll (c.Add d) ds).ListName = _
      exact h2

theorem yesNoCond_true (s : String) : yesNoCond s = true := by
  unfold yesNoCond
  simp only [Bool.or_eq_true, bne_iff_ne]
  rcases eq_or_ne s "yes" with h | h
  · subst h; decide
  · tauto

theorem vehicleTypeCond_true (s : String) : vehicleTypeCond s = true := by
  unfold vehicleTypeCond
  simp only [Bool.or_eq_true, bne_iff_ne]
  rcases eq_or_ne s "compact" with h | h
  · subst h; decide
  · tauto

theorem paymentCond_true (s : String) : paymentCond s = true := by
  unfold paymentCond
  simp only [Bool.or_eq_true, bne_iff_ne]
  rcases eq_or_ne s "cash" with h | h
  · subst h; decide
  · tauto

theorem runPromptLoop_none_of_taut (cond : String → Bool) (hc : ∀ s, cond s = true)
    (inputs : Nat → String) : ∀ (fuel i : Nat), runPromptLoop cond inputs fuel i = none := by
  intro fuel
  induction fuel with
  | zero => intro i; rfl
  | succ n ih =>
    intro i
    simp only [runPromptLoop, hc (inputs i), if_true]
    exact ih (i + 1)

/-- C1 (counterexample): the claim "PrintSize reports a number equal to the
number of Add calls made" fails on the empty sequence of Add calls: after zero
Add calls on a freshly constructed passenger collection, PrintSize reports no
number at all (it takes the "Vector is empty." branch), rather than reporting
the count 0. -/
theorem C1_counterexample_empty_reports_no_number :
    ((passengers.mkNamed "Passengers List").AddAll []).PrintSizeNumber = none ∧
    ((passengers.mkNamed "Passengers List").AddAll []).PrintSizeNumber ≠ some 0 := by
  exact ⟨rfl, by decide⟩

/-- C1 (amended): after any nonempty sequence of N Add calls on a passenger
collection starting empty, PrintSize reports exactly N — no add is dropped and
no two records are merged; after zero Add calls it reports no number (it
prints "Vector is empty." instead). For the driver collection, whose Add and
PrintSize bodies are absent from the source and are modelled from the spec,
the count equals the number of Add calls for every N. -/
theorem C1_amended_count_matches_adds :
    (∀ (l : List passenger) (nm : String), l ≠ [] →
      ((passengers.mkNamed nm).AddAll l).PrintSizeNumber = some l.length) ∧
    (∀ nm : String, (passengers.mkNamed nm).PrintSizeNumber = none) ∧
    (∀ (l : List driver) (nm : String), ((drivers.mkNamed nm).AddAll l).Count = l.length) := by
  refine ⟨?_, ?_, ?_⟩
  · intro l nm hl
    have h2 : ((passengers.mkNamed nm).AddAll l).TotalPassengers = l := by
      simpa [passengers.mkNamed] using (passengers_AddAll_spec l (passengers.mkNamed nm)).1
    unfold passengers.PrintSizeNumber
    rw [h2]
    simp [List.length_eq_zero, hl]
  · intro nm; rfl
  · intro l nm
    have h2 : ((drivers.mkNamed nm).AddAll l).TotalDrivers = l := by
      simpa [drivers.mkNamed] using (drivers_AddAll_spec l (drivers.mkNamed nm)).1
    unfold drivers.Count
    rw [h2]

/-- Witness for C1: a single Add call on the empty passenger collection makes
PrintSize report the count 1. -/
theorem C1_amended_count_matches_adds_witness :
    ((passengers.mkNamed "Passengers List").AddAll [samplePassenger]).PrintSizeNumber = some 1 :=
  C1_amended_count_matches_adds.1 [samplePassenger] "Passengers List" (List.cons_ne_nil _ _)

/-- C2: on a passenger collection starting empty, PrintAll after N adds
produces exactly N record renderings, one per added record in the order they
were added, and PrintAll on the empty collection produces the empty
sequence. -/
theorem C2_print_all_insertion_order :
    (∀ (nm : String) (l : List passenger),
      ((passengers.mkNamed nm).AddAll l).PrintAll = l.map renderPassenger ∧
      ((passengers.mkNamed nm).AddAll l).PrintAll.length = l.length) ∧
    (∀ nm : String, (passengers.mkNamed nm).PrintAll = []) := by
  constructor
  · intro nm l
    have h2 : ((passengers.mkNamed nm).AddAll l).TotalPassengers = l := by
      simpa [passengers.mkNamed] using (passengers_AddAll_spec l (passengers.mkNamed nm)).1
    constructor
    · unfold passengers.PrintAll
      rw [h2]
    · unfold passengers.PrintAll
      rw [h2]
      simp
  · intro nm; rfl

/-- C3 (code bug): FindEntry does not yield an explicit not-found outcome.
Evaluated at the failing input — FindEntry(5) on a freshly constructed, empty
passenger collection — the modelled std::find search reaches end() (`none`),
and the source then dereferences the iterator unconditionally, which is
undefined behavior rather than a distinct not-found result; the search in the
source is moreover ill-formed as written (`it` undeclared, no operator==
between a passenger and an int). -/
theorem C3_find_entry_search_reaches_end :
    (passengers.mkNamed "Passengers List").FindEntrySearch 5 = none := rfl

/-- C4 (counterexample): the claim that each OR-joined validation loop
"terminates and exits after a single iteration" is false: even on the valid
input "yes", the yes/no loop's condition still evaluates to true, so running
the loop for one iteration on the constant stream of "yes" tokens leaves it
still running (it has not exited). -/
theorem C4_counterexample_loop_does_not_exit :
    yesNoCond "yes" = true ∧
    runPromptLoop yesNoCond (fun _ => "yes") 1 0 = none := by
  exact ⟨by decide, by decide⟩

/-- C4 (amended): each validation prompt loop in the combined add flow — the
yes/no loops, the vehicle-type loop, and the payment-method loop, whose
conditions combine disequalities with logical OR — has a condition that is
true for every input token (the OR of disequalities against two or more
distinct literals is a tautology), so the loop never exits: for every input
stream, every start position, and every iteration bound, it is still running,
regardless of whether the input satisfied the validity constraints. -/
theorem C4_amended_loops_never_exit :
    (∀ s, yesNoCond s = true) ∧ (∀ s, vehicleTypeCond s = true) ∧
    (∀ s, paymentCond s = true) ∧
    (∀ (inputs : Nat → String) (fuel i : Nat), runPromptLoop yesNoCond inputs fuel i = none) ∧
    (∀ (inputs : Nat → String) (fuel i : Nat), runPromptLoop vehicleTypeCond inputs fuel i = none) ∧
    (∀ (inputs : Nat → String) (fuel i : Nat), runPromptLoop paymentCond inputs fuel i = none) :=
  ⟨yesNoCond_true, vehicleTypeCond_true, paymentCond_true,
   fun inputs => runPromptLoop_none_of_taut _ yesNoCond_true inputs,
   fun inputs => runPromptLoop_none_of_taut _ vehicleTypeCond_true inputs,
   fun inputs => runPromptLoop_none_of_taut _ paymentCond_true inputs⟩

/-- C5 (code bug): a rating outside [1.0, 5.0] is stored. The add flow of
src/passengersmain.cpp reads the rating with no validation: with console
inputs name "Bo", id 7, payment "cash", handicap 0, rating 0.5, pets 1 it
appends a record whose stored rating is 0.5, which lies outside [1.0, 5.0]. -/
theorem C5_unvalidated_rating_stored :
    (passengersmainAddFlow (passengers.mkNamed "Passengers List") 0 false 0 false
        "Bo" 7 "cash" false (1/2) true).TotalPassengers =
      [⟨"Bo", 7, "cash", false, 1/2, true⟩] ∧
    ¬ ((1 : ℚ) ≤ 1/2 ∧ (1 : ℚ)/2 ≤ 5) := by
  constructor
  · rfl
  · intro hc
    have h := hc.1
    norm_num at h

/-- C6: insertion order is an invariant of the passenger collection. Over
every sequence of calls to the public member functions (Add, PrintSize,
PrintAll, FindEntry) from any starting state, the resulting record vector is
the starting vector extended on the right by exactly the records passed to
Add, in call order — so records already present keep their relative order,
none is removed or updated, and the list name never changes: append is the
only mutation. -/
theorem C6_only_append_mutates :
    ∀ (ops : List POp) (c : passengers),
      (runOps c ops).TotalPassengers = c.TotalPassengers ++ addsOf ops ∧
      (runOps c ops).ListName = c.ListName := by
  intro ops
  induction ops with
  | nil => intro c; exact ⟨(List.append_nil _).symm, rfl⟩
  | cons op ops ih =>
    intro c
    cases op with
    | add p =>
      rcases ih (c.Add p) with ⟨h1, h2⟩
      constructor
      · show (runOps (c.Add p) ops).TotalPassengers = _
        rw [h1]
        simp [passengers.Add, addsOf]
      · exact h2
    | printSize => exact ih c
    | printAll => exact ih c
    | findEntry n => exact ih c

/-- C7 (counterexample): default construction does not yield zero-valued
fields only. The driver default constructor assigns the non-trivial default
"None" to the name field, which is not the default-constructed (empty)
string. -/
theorem C7_counterexample_driver_name_default :
    driver.defaultCtor.getName = "None" ∧ driver.defaultCtor.getName ≠ "" := by
  exact ⟨rfl, by decide⟩

/-- C7 (amended): default construction of a driver record yields zero for the
numeric fields and false for the booleans, but assigns the non-trivial string
defaults "None" (name) and "Blank" (vehicle type and notes); default
construction of a passenger record assigns nothing at all — its string fields
become empty and its numeric and boolean fields are left with indeterminate
values (here the parameters i0, h0, r0, pt0). -/
theorem C7_amended_default_construction :
    driver.defaultCtor = ⟨0, "None", 0, false, "Blank", 0, false, false, "Blank"⟩ ∧
    ∀ (i0 : Int) (h0 : Bool) (r0 : ℚ) (pt0 : Bool),
      passenger.defaultCtor i0 h0 r0 pt0 = ⟨"", i0, "", h0, r0, pt0⟩ :=
  ⟨rfl, fun _ _ _ _ => rfl⟩

/-- C8: the query operations are side-effect-free on the collection. For every
collection state, the PrintSize and PrintAll member calls leave the state
(records and name) unchanged, and a repeated PrintAll — a fresh traversal
after a previous one — yields the same sequence as the first. -/
theorem C8_queries_side_effect_free :
    ∀ c : passengers,
      stepOp c POp.printSize = c ∧
      stepOp c POp.printAll = c ∧
      (stepOp c POp.printSize).PrintSize = c.PrintSize ∧
      (stepOp c POp.printAll).PrintAll = c.PrintAll :=
  fun _ => ⟨rfl, rfl, rfl, rfl⟩

/-- C9: record field setters and the parameterized constructors perform no
validation or clamping: for every record and every value — including
out-of-range ratings — setting a field and reading it back with the
corresponding getter returns exactly the value passed in, and the getters of
a record built with the parameterized constructor return its arguments. -/
theorem C9_set_get_roundtrip :
    ∀ (p : passenger) (d : driver) (s : String) (i : Int) (b : Bool) (v : ℚ),
      (p.setName s).getName = s ∧
      (p.setID i).getID = i ∧
      (p.setPaymentMethod s).getPayment = s ∧
      (p.setHandicap b).getHandicap = b ∧
      (p.setRating v).getRating = v ∧
      (p.setPets b).getPets = b ∧
      (d.setID i).getID = i ∧
      (d.setName s).getName = s ∧
      (d.setCapacity i).getCapacity = i ∧
      (d.setHandicap b).getHandicap = b ∧
      (d.setType s).getType = s ∧
      (d.setRating v).getRating = v ∧
      (d.setAvailable b).getAvailable = b ∧
      (d.setPets b).getPets = b ∧
      (d.setNotes s).getNotes = s ∧
      (passenger.mk s i s b v b).getRating = v ∧
      (driver.mk i s i b s v b b s).getRating = v :=
  fun _ _ _ _ _ _ =>
    ⟨rfl, rfl, rfl, rfl, rfl, rfl, rfl, rfl, rfl, rfl, rfl, rfl, rfl, rfl, rfl, rfl, rfl⟩

/-- C10: on an empty collection, PrintSize does not report the numeric count
0: it prints "Vector is empty." instead, and the numeric size line is printed
exactly when the collection holds at least one record. -/
theorem C10_print_size_empty_message :
    (∀ c : passengers, c.TotalPassengers.length = 0 →
      c.PrintSize = ["Vector is empty.\n"]) ∧
    (∀ c : passengers, c.TotalPassengers.length ≠ 0 →
      c.PrintSize = ["The size is: " ++ toString c.TotalPassengers.length]) := by
  constructor
  · intro c h
    simp [passengers.PrintSize, h]
  · intro c h
    simp [passengers.PrintSize, h]

/-- Witness for C10: the freshly constructed collection prints the
empty-vector message, and after one Add the size line reads "The size is:
1". -/
theorem C10_print_size_empty_message_witness :
    (passengers.mkNamed "Passengers List").PrintSize = ["Vector is empty.\n"] ∧
    ((passengers.mkNamed "Passengers List").Add samplePassenger).PrintSize = ["The size is: 1"] := by
  constructor
  · exact C10_print_size_empty_message.1 _ rfl
  · have h := C10_print_size_empty_message.2
      ((passengers.mkNamed "Passengers List").Add samplePassenger) (by decide)
    exact h.trans (by decide)
